import Mathlib

/-!
Verification of the `pg_tpch` extension (`src/lib.rs`) against its
natural-language specification.

The extension exposes three Postgres functions:
  * `tpch_load(sf, children, step)` — the partitioned load pipeline,
  * `tpch_queries()` — lists the 22 canonical TPC-H query texts,
  * `tpch_query(n)` — looks one query text up by number.

Shallow embedding choices:
  * `f64` scale factors are modelled as `ℚ` (exact reals; the source only
    compares `sf == 0.0` and passes `sf` through, so `-0.0` and `NaN`
    artifacts of IEEE 754 are outside the model).
  * `i64` arguments are modelled as `Int`; the source's `as usize` and
    `as i32` casts are modelled explicitly by `toUsize` / `wrap32`.
  * The side effects (SPI statements and filesystem calls) are modelled by
    an `Env` telling which external operations succeed, and every run
    returns a `RustResult` together with the ordered trace of the external
    operations that completed successfully.
  * Rust panics (`unwrap` / `expect`) are a distinct outcome
    `RustResult.panicked`, separate from the `spi::Result` error channel.
-/

/-- The `spi::SpiError` values the extension can return, tagged by which
statement failed. `preparedStatementArgumentMismatch` mirrors
`SpiError::PreparedStatementArgumentMismatch { expected, got }` built at
src/lib.rs:125-128 from `children as usize` and `step as usize`; the other
two stand for the opaque errors `Spi::run` can return for the TRUNCATE
(src/lib.rs:106) and the COPY (src/lib.rs:163). -/
inductive SpiErr where
  | preparedStatementArgumentMismatch : Nat → Nat → SpiErr
  | truncateFailed : SpiErr
  | copyFailed : String → SpiErr
deriving DecidableEq, Repr

/-- Outcome of running a Rust function body: a normal return value, an
error returned through `spi::Result`, or a Rust panic (from `unwrap` or
`expect`). The panic payload is a tag naming the panicking operation. -/
inductive RustResult (α : Type) where
  | ok : α → RustResult α
  | err : SpiErr → RustResult α
  | panicked : String → RustResult α
deriving DecidableEq, Repr

/-- External operations, recorded in order as they complete successfully.
`truncateTables` is the single SPI `TRUNCATE ... RESTART IDENTITY`
statement naming all eight tables (src/lib.rs:105-111); `writeCsv` is the
header/rows write loop fed by the table's row generator constructed as
`Generator::new(sf, part, numParts)` (src/lib.rs:148-153, 172-203). -/
inductive Effect where
  | truncateTables : List String → Effect
  | createDirAll : String → Effect
  | createFile : String → Effect
  | writeCsv : String → ℚ → Int → Int → Effect
  | copyInto : String → String → Effect
  | removeFile : String → Effect
deriving DecidableEq, Repr

/-- Which external operations succeed during a run: the TRUNCATE
statement, and the per-table filesystem and COPY steps (each keyed by the
table name of the invocation performing it). -/
structure Env where
  truncateOk : Bool
  createDirOk : String → Bool
  createFileOk : String → Bool
  writeOk : String → Bool
  canonicalizeOk : String → Bool
  copyOk : String → Bool
  removeOk : String → Bool

/-- The environment in which every external operation succeeds. -/
def allOk : Env :=
  ⟨true, fun _ => true, fun _ => true, fun _ => true, fun _ => true, fun _ => true,
    fun _ => true⟩

/-- `const TPCH_DATA_DIR: &str = "/tmp/pg_tpch_data";` (src/lib.rs:103). -/
def TPCH_DATA_DIR : String := "/tmp/pg_tpch_data"

/-- `dir.join(format!("{}.csv", table_name))` (src/lib.rs:144); the staging
directory is absolute, so `fs::canonicalize` yields the same path. -/
def csvFilePath (tableName : String) : String :=
  TPCH_DATA_DIR ++ "/" ++ tableName ++ ".csv"

/-- The eight TPC-H tables, in the order they appear both in the TRUNCATE
statement (src/lib.rs:108) and in the load sequence (src/lib.rs:172-203):
region, nation, part, supplier, partsupp, customer, orders, lineitem. -/
def tableOrder : List String :=
  ["region", "nation", "part", "supplier", "partsupp", "customer", "orders", "lineitem"]

/-- `truncate_tables` (src/lib.rs:105-111): one `Spi::run` of a single
TRUNCATE statement spanning all eight tables. -/
def truncate_tables (env : Env) : RustResult Unit × List Effect :=
  if env.truncateOk then (.ok (), [.truncateTables tableOrder])
  else (.err .truncateFailed, [])

/-- Rust `x as usize` on an `i64` value (two's-complement wrap into
`[0, 2^64)`), as used at src/lib.rs:126-127. -/
def toUsize (x : Int) : Nat := (x % (2 ^ 64 : Int)).toNat

/-- Rust `x as i64 as i32` truncation (two's-complement wrap into
`[-2^31, 2^31)`), as used at src/lib.rs:135-136. -/
def wrap32 (x : Int) : Int := (x + 2 ^ 31) % 2 ^ 32 - 2 ^ 31

/-- One expansion of the `generate_and_copy_csv_table!` macro
(src/lib.rs:138-170): create the staging dir, create the per-table CSV
file, write header and generated rows, canonicalize, `Spi::run` the COPY,
then remove the file. Every filesystem step is `.unwrap()`ed (panics on
failure); only the COPY failure flows back through `spi::Result`, and the
`?` at src/lib.rs:163 returns before `fs::remove_file` runs. -/
def generate_and_copy_csv_table (env : Env) (tableName : String) (sf : ℚ)
    (part numParts : Int) : RustResult Unit × List Effect :=
  if env.createDirOk tableName then
    if env.createFileOk tableName then
      if env.writeOk tableName then
        if env.canonicalizeOk tableName then
          if env.copyOk tableName then
            if env.removeOk tableName then
              (.ok (),
                [.createDirAll TPCH_DATA_DIR, .createFile (csvFilePath tableName),
                  .writeCsv tableName sf part numParts,
                  .copyInto tableName (csvFilePath tableName),
                  .removeFile (csvFilePath tableName)])
            else
              (.panicked "unwrap: fs remove_file",
                [.createDirAll TPCH_DATA_DIR, .createFile (csvFilePath tableName),
                  .writeCsv tableName sf part numParts,
                  .copyInto tableName (csvFilePath tableName)])
          else
            (.err (.copyFailed tableName),
              [.createDirAll TPCH_DATA_DIR, .createFile (csvFilePath tableName),
                .writeCsv tableName sf part numParts])
        else
          (.panicked "unwrap: fs canonicalize",
            [.createDirAll TPCH_DATA_DIR, .createFile (csvFilePath tableName),
              .writeCsv tableName sf part numParts])
      else
        (.panicked "unwrap: writeln",
          [.createDirAll TPCH_DATA_DIR, .createFile (csvFilePath tableName)])
    else
      (.panicked "unwrap: fs File create", [.createDirAll TPCH_DATA_DIR])
  else (.panicked "unwrap: fs create_dir_all", [])

/-- The eight sequential, early-aborting macro invocations of
src/lib.rs:172-203, folded over `tableOrder`: a non-`ok` outcome from any
table stops the sequence and is returned with the trace so far. -/
def loadTables (env : Env) (sf : ℚ) (part numParts : Int) :
    List String → RustResult Unit × List Effect
  | [] => (.ok (), [])
  | t :: ts =>
    match generate_and_copy_csv_table env t sf part numParts with
    | (.ok _, tr) =>
      let r := loadTables env sf part numParts ts
      (r.fst, tr ++ r.snd)
    | (.err e, tr) => (.err e, tr)
    | (.panicked m, tr) => (.panicked m, tr)

/-- The success message `format!("TPC-H SF={} loaded (part {}/{})", sf,
step + 1, children)` (src/lib.rs:205-210); numeric formatting of the
`f64` is abstracted by `ℚ`'s `toString`. -/
def loadedMsg (sf : ℚ) (children step : Int) : String :=
  "TPC-H SF=" ++ toString sf ++ " loaded (part " ++ toString (step + 1) ++ "/" ++
    toString children ++ ")"

/-- `tpch_load` (src/lib.rs:113-211). `sf == 0.` short-circuits to
truncate-only; otherwise partition validation, an optional truncate for
`step == 0`, then the eight table loads with `part = (step + 1) as i32`
and `num_parts = children as i32`. -/
def tpch_load (env : Env) (sf : ℚ) (children step : Int) :
    RustResult (Option String) × List Effect :=
  if sf = 0 then
    match truncate_tables env with
    | (.ok _, tr) => (.ok (some "TPC-H tables truncated"), tr)
    | (.err e, tr) => (.err e, tr)
    | (.panicked m, tr) => (.panicked m, tr)
  else if children < 1 ∨ step < 0 ∨ step ≥ children then
    (.err (.preparedStatementArgumentMismatch (toUsize children) (toUsize step)), [])
  else
    match (if step = 0 then truncate_tables env else (.ok (), [])) with
    | (.err e, tr) => (.err e, tr)
    | (.panicked m, tr) => (.panicked m, tr)
    | (.ok _, tr0) =>
      match loadTables env sf (wrap32 (step + 1)) (wrap32 children) tableOrder with
      | (.ok _, tr) => (.ok (some (loadedMsg sf children step)), tr0 ++ tr)
      | (.err e, tr) => (.err e, tr0 ++ tr)
      | (.panicked m, tr) => (.panicked m, tr0 ++ tr)

/-- The loader calls visible in a trace: for each `writeCsv` effect, the
table name and the `(sf, part, numParts)` triple its generator was
constructed with. -/
def loaderCalls (tr : List Effect) : List (String × ℚ × Int × Int) :=
  tr.filterMap fun e =>
    match e with
    | .writeCsv t q p n => some (t, q, p, n)
    | _ => none

/-- The staging files created in a trace. -/
def createdFiles (tr : List Effect) : List String :=
  tr.filterMap fun e =>
    match e with
    | .createFile p => some p
    | _ => none

/-- Trace of one per-table load in which every step succeeded. -/
def fullTableTrace (tableName : String) (sf : ℚ) (part numParts : Int) : List Effect :=
  [.createDirAll TPCH_DATA_DIR, .createFile (csvFilePath tableName),
    .writeCsv tableName sf part numParts, .copyInto tableName (csvFilePath tableName),
    .removeFile (csvFilePath tableName)]

/-- Trace of a per-table load whose COPY step failed: the staged file was
created and written, but `fs::remove_file` never ran. -/
def stagedOnlyTrace (tableName : String) (sf : ℚ) (part numParts : Int) : List Effect :=
  [.createDirAll TPCH_DATA_DIR, .createFile (csvFilePath tableName),
    .writeCsv tableName sf part numParts]

/-- All filesystem operations succeed in `env` (the COPY statements and
the TRUNCATE may still fail). -/
def fsOk (env : Env) : Prop :=
  ∀ t, env.createDirOk t = true ∧ env.createFileOk t = true ∧ env.writeOk t = true ∧
    env.canonicalizeOk t = true ∧ env.removeOk t = true

/-- Everything succeeds except the COPY into table `bad`. -/
def envFailCopy (bad : String) : Env :=
  ⟨true, fun _ => true, fun _ => true, fun _ => true, fun _ => true, fun t => t != bad,
    fun _ => true⟩

/-- Everything succeeds except `fs::create_dir_all` during the load of
table `bad`. -/
def envFailCreateDir (bad : String) : Env :=
  ⟨true, fun t => t != bad, fun _ => true, fun _ => true, fun _ => true, fun _ => true,
    fun _ => true⟩

theorem fsOk_allOk : fsOk allOk := fun _ => ⟨rfl, rfl, rfl, rfl, rfl⟩

theorem fsOk_envFailCopy (bad : String) : fsOk (envFailCopy bad) :=
  fun _ => ⟨rfl, rfl, rfl, rfl, rfl⟩

/-- A single table load always returns `ok` with the full trace, the COPY
error with the staged-only trace, or a panic; its trace is always an
initial segment of the full trace. -/
theorem generate_shape (env : Env) (t : String) (sf : ℚ) (p n : Int) :
    (∃ k, (generate_and_copy_csv_table env t sf p n).snd = (fullTableTrace t sf p n).take k) ∧
    ((generate_and_copy_csv_table env t sf p n).fst = .ok () ∨
      (generate_and_copy_csv_table env t sf p n).fst = .err (.copyFailed t) ∨
      ∃ m, (generate_and_copy_csv_table env t sf p n).fst = .panicked m) := by
  unfold generate_and_copy_csv_table
  repeat' split
  all_goals
    first
      | exact ⟨⟨5, rfl⟩, Or.inl rfl⟩
      | exact ⟨⟨4, rfl⟩, Or.inr (Or.inr ⟨_, rfl⟩)⟩
      | exact ⟨⟨3, rfl⟩, Or.inr (Or.inl rfl)⟩
      | exact ⟨⟨3, rfl⟩, Or.inr (Or.inr ⟨_, rfl⟩)⟩
      | exact ⟨⟨2, rfl⟩, Or.inr (Or.inr ⟨_, rfl⟩)⟩
      | exact ⟨⟨1, rfl⟩, Or.inr (Or.inr ⟨_, rfl⟩)⟩
      | exact ⟨⟨0, rfl⟩, Or.inr (Or.inr ⟨_, rfl⟩)⟩

/-- When the filesystem operations succeed, a table load is decided by
its COPY statement alone. -/
theorem generate_fsOk (env : Env) (h : fsOk env) (t : String) (sf : ℚ) (p n : Int) :
    generate_and_copy_csv_table env t sf p n =
      if env.copyOk t then (.ok (), fullTableTrace t sf p n)
      else (.err (.copyFailed t), stagedOnlyTrace t sf p n) := by
  obtain ⟨h1, h2, h3, h4, h5⟩ := h t
  cases hc : env.copyOk t <;>
    simp [generate_and_copy_csv_table, h1, h2, h3, h4, h5, hc, fullTableTrace,
      stagedOnlyTrace]

/-- No table load ever issues the TRUNCATE statement. -/
theorem truncate_notin_generate (env : Env) (t : String) (sf : ℚ) (p n : Int)
    (ls : List String) :
    Effect.truncateTables ls ∉ (generate_and_copy_csv_table env t sf p n).snd := by
  obtain ⟨k, hk⟩ := (generate_shape env t sf p n).1
  rw [hk]
  intro hmem
  have := List.take_subset k (fullTableTrace t sf p n) hmem
  simp [fullTableTrace] at this

/-- The only `spi::Result` error a table load returns is its COPY
failure. -/
theorem generate_err_shape (env : Env) (t : String) (sf : ℚ) (p n : Int) (e : SpiErr)
    (h : (generate_and_copy_csv_table env t sf p n).fst = .err e) : e = .copyFailed t := by
  rcases (generate_shape env t sf p n).2 with hs | hs | ⟨m, hs⟩ <;> rw [hs] at h
  · cases h
  · cases h; rfl
  · cases h

/-- The TRUNCATE statement is never issued from inside the table-load
sequence. -/
theorem truncate_notin_loadTables (env : Env) (sf : ℚ) (p n : Int) (ls : List String) :
    ∀ ts : List String, Effect.truncateTables ls ∉ (loadTables env sf p n ts).snd := by
  intro ts
  induction ts with
  | nil => simp [loadTables]
  | cons t ts ih =>
    have hg := truncate_notin_generate env t sf p n ls
    simp only [loadTables]
    rcases hgen : generate_and_copy_csv_table env t sf p n with ⟨rg, trg⟩
    rw [hgen] at hg
    cases rg <;> simp_all

/-- Any `spi::Result` error out of the table-load sequence is a COPY
failure of one of its tables. -/
theorem loadTables_err_shape (env : Env) (sf : ℚ) (p n : Int) :
    ∀ (ts : List String) (e : SpiErr),
      (loadTables env sf p n ts).fst = .err e → ∃ t ∈ ts, e = .copyFailed t := by
  intro ts
  induction ts with
  | nil => intro e h; simp [loadTables] at h
  | cons t ts ih =>
    intro e h
    simp only [loadTables] at h
    rcases hgen : generate_and_copy_csv_table env t sf p n with ⟨rg, trg⟩
    rw [hgen] at h
    cases rg with
    | ok _ =>
      simp only at h
      obtain ⟨u, hu, he⟩ := ih e h
      exact ⟨u, List.mem_cons_of_mem t hu, he⟩
    | err eg =>
      simp only at h
      injection h with h2
      subst h2
      exact ⟨t, List.mem_cons_self t ts, generate_err_shape env t sf p n _ (by rw [hgen])⟩
    | panicked m => simp only at h; cases h

/-- With working filesystem operations, the table-load sequence never
panics. -/
theorem loadTables_no_panic (env : Env) (h : fsOk env) (sf : ℚ) (p n : Int) :
    ∀ (ts : List String) (m : String), (loadTables env sf p n ts).fst ≠ .panicked m := by
  intro ts
  induction ts with
  | nil => intro m hm; simp [loadTables] at hm
  | cons t ts ih =>
    intro m hm
    simp only [loadTables] at hm
    rw [generate_fsOk env h t sf p n] at hm
    cases hc : env.copyOk t with
    | false => rw [hc] at hm; simp at hm
    | true => rw [hc] at hm; simp at hm; exact ih m hm

/-- When every COPY in `ts` succeeds (and the filesystem works), the
sequence succeeds with the concatenation of the full per-table traces. -/
theorem loadTables_allCopyOk (env : Env) (h : fsOk env) (sf : ℚ) (p n : Int) :
    ∀ ts : List String, (∀ t ∈ ts, env.copyOk t = true) →
      loadTables env sf p n ts =
        (.ok (), ts.flatMap fun t => fullTableTrace t sf p n) := by
  intro ts
  induction ts with
  | nil => intro _; simp [loadTables]
  | cons t ts ih =>
    intro hok
    have ht : env.copyOk t = true := hok t (List.mem_cons_self t ts)
    simp only [loadTables, generate_fsOk env h t sf p n, ht, if_true]
    rw [ih fun u hu => hok u (List.mem_cons_of_mem t hu)]
    simp

/-- The sequence stops at the first table whose COPY fails: the tables
before it are fully loaded (and their staging files removed), the failing
table's staging file is left behind, and no later table is touched. -/
theorem loadTables_firstCopyFail (env : Env) (h : fsOk env) (sf : ℚ) (p n : Int) :
    ∀ (ts rest : List String) (bad : String),
      ts.dropWhile env.copyOk = bad :: rest →
      loadTables env sf p n ts =
        (.err (.copyFailed bad),
          ((ts.takeWhile env.copyOk).flatMap fun t => fullTableTrace t sf p n) ++
            stagedOnlyTrace bad sf p n) := by
  intro ts
  induction ts with
  | nil => intro rest bad hdrop; simp [List.dropWhile] at hdrop
  | cons t ts ih =>
    intro rest bad hdrop
    cases hc : env.copyOk t with
    | true =>
      rw [List.dropWhile_cons_of_pos (by simp [hc])] at hdrop
      simp only [loadTables, generate_fsOk env h t sf p n, hc, if_true]
      rw [ih rest bad hdrop]
      simp [List.takeWhile_cons_of_pos, hc]
    | false =>
      rw [List.dropWhile_cons_of_neg (by simp [hc])] at hdrop
      cases hdrop
      simp only [loadTables, generate_fsOk env h t sf p n, hc, if_false]
      simp [List.takeWhile_cons_of_neg, hc]

/-- `loaderCalls` of a concatenation of full per-table traces is one call
per table, in order, with the shared `(sf, part, numParts)` arguments. -/
theorem loaderCalls_flatMap_full (sf : ℚ) (p n : Int) :
    ∀ ts : List String,
      loaderCalls (ts.flatMap fun t => fullTableTrace t sf p n) =
        ts.map fun t => (t, sf, p, n) := by
  intro ts
  induction ts with
  | nil => simp [loaderCalls]
  | cons t ts ih =>
    simp only [List.flatMap_cons, List.map_cons, loaderCalls, List.filterMap_append]
    rw [loaderCalls] at ih
    rw [ih]
    simp [fullTableTrace]

/-- Full evaluation of a valid generating run in the all-successful
environment. -/
theorem tpch_load_allOk (sf : ℚ) (children step : Int) (hsf : sf ≠ 0)
    (hc : 1 ≤ children) (hs : 0 ≤ step) (hlt : step < children) :
    tpch_load allOk sf children step =
      (.ok (some (loadedMsg sf children step)),
        (if step = 0 then [Effect.truncateTables tableOrder] else []) ++
          tableOrder.flatMap fun t =>
            fullTableTrace t sf (wrap32 (step + 1)) (wrap32 children)) := by
  have hval : ¬(children < 1 ∨ step < 0 ∨ step ≥ children) := by
    push_neg
    exact ⟨hc, hs, hlt⟩
  have hload := loadTables_allCopyOk allOk fsOk_allOk sf (wrap32 (step + 1))
    (wrap32 children) tableOrder (fun t _ => rfl)
  unfold tpch_load
  rw [if_neg hsf, if_neg hval]
  by_cases hstep : step = 0
  · subst hstep
    rw [if_pos rfl]
    have ht : truncate_tables allOk = (.ok (), [Effect.truncateTables tableOrder]) := rfl
    rw [ht]
    dsimp only
    rw [hload]
    simp
  · rw [if_neg hstep]
    dsimp only
    rw [hload]
    simp [hstep]

/-- For nonzero scale factors and valid partition parameters, every
`spi::Result` error out of `tpch_load` is the TRUNCATE failure or a COPY
failure of one of the eight tables — never the validation error. -/
theorem tpch_load_err_shape (env : Env) (sf : ℚ) (children step : Int)
    (hsf : sf ≠ 0) (hval : ¬(children < 1 ∨ step < 0 ∨ step ≥ children)) (e : SpiErr)
    (h : (tpch_load env sf children step).fst = .err e) :
    e = .truncateFailed ∨ ∃ t ∈ tableOrder, e = .copyFailed t := by
  unfold tpch_load at h
  rw [if_neg hsf, if_neg hval] at h
  rcases hT : (if step = 0 then truncate_tables env
      else ((.ok (), []) : RustResult Unit × List Effect)) with ⟨rt, trt⟩
  rw [hT] at h
  have hrt : rt = .ok () ∨ rt = .err .truncateFailed := by
    by_cases hstep : step = 0
    · rw [if_pos hstep] at hT
      cases ht : env.truncateOk <;> simp [truncate_tables, ht] at hT <;>
        simp [hT.1]
    · rw [if_neg hstep] at hT
      exact Or.inl (congrArg Prod.fst hT).symm
  cases rt with
  | ok u =>
    dsimp only at h
    rcases hL : loadTables env sf (wrap32 (step + 1)) (wrap32 children) tableOrder
      with ⟨rl, trl⟩
    rw [hL] at h
    cases rl with
    | ok _ => dsimp only at h; cases h
    | err el =>
      dsimp only at h
      injection h with h2
      subst h2
      exact Or.inr (loadTables_err_shape env sf (wrap32 (step + 1)) (wrap32 children)
        tableOrder el (by rw [hL]))
    | panicked m => dsimp only at h; cases h
  | err te =>
    dsimp only at h
    injection h with h2
    subst h2
    rcases hrt with h1 | h1
    · cases h1
    · injection h1 with h3
      exact Or.inl h3
  | panicked m => dsimp only at h; cases h

/-- C1: with `scaleFactor = 0`, for every `children` and `step` (valid or
not), `tpch_load` issues exactly the single TRUNCATE over all eight
tables — no generation, no partition validation — and, when the TRUNCATE
statement succeeds, returns "TPC-H tables truncated". -/
theorem c1_zero_sf_reset_only (env : Env) (children step : Int) :
    (env.truncateOk = true →
      tpch_load env 0 children step =
        (.ok (some "TPC-H tables truncated"), [.truncateTables tableOrder])) ∧
    loaderCalls (tpch_load env 0 children step).snd = [] ∧
    ∀ e g : Nat,
      (tpch_load env 0 children step).fst ≠ .err (.preparedStatementArgumentMismatch e g) := by
  have h0 : tpch_load env 0 children step =
      (match truncate_tables env with
        | (.ok _, tr) => (.ok (some "TPC-H tables truncated"), tr)
        | (.err e, tr) => (.err e, tr)
        | (.panicked m, tr) => (.panicked m, tr)) := by
    unfold tpch_load
    rw [if_pos rfl]
  cases ht : env.truncateOk with
  | false =>
    have htr : truncate_tables env = (.err .truncateFailed, []) := by
      simp [truncate_tables, ht]
    rw [h0, htr]
    refine ⟨fun hcon => absurd hcon (by simp [ht]), by simp [loaderCalls], ?_⟩
    intro e g hcon
    simp at hcon
  | true =>
    have htr : truncate_tables env = (.ok (), [.truncateTables tableOrder]) := by
      simp [truncate_tables, ht]
    rw [h0, htr]
    refine ⟨fun _ => rfl, by simp [loaderCalls], ?_⟩
    intro e g hcon
    simp at hcon

/-- C1 witness: even with invalid partition parameters (children = 0,
step = 5), scale factor 0 resets and reports it. -/
theorem c1_zero_sf_reset_only_witness :
    tpch_load allOk 0 0 5 =
      (.ok (some "TPC-H tables truncated"), [.truncateTables tableOrder]) :=
  (c1_zero_sf_reset_only allOk 0 5).1 rfl

/-- C2 counterexample: at sf = 1, children = 1, step = -1 validation
fails, but the error's `got` field is 18446744073709551615 — the
`as usize` wrap of step — not the offending step value -1, which no
`usize` can carry. -/
theorem c2_counterexample :
    tpch_load allOk 1 1 (-1) =
      (.err (.preparedStatementArgumentMismatch 1 18446744073709551615), []) ∧
    (18446744073709551615 : Int) ≠ (-1 : Int) := by
  constructor
  · decide
  · decide

/-- C2 (amended): for every nonzero sf and i64-range `children`, `step`,
`tpch_load` fails with `PreparedStatementArgumentMismatch` — carrying
`children` and `step` wrapped through `as usize` (equal to the original
values whenever they are non-negative) — and performs no effect at all,
exactly when `children < 1` or `step < 0` or `step ≥ children`; every
valid combination passes validation (no mismatch error is ever
returned for it). -/
theorem c2_validation (env : Env) (sf : ℚ) (children step : Int) (hsf : sf ≠ 0) :
    ((children < 1 ∨ step < 0 ∨ step ≥ children) →
      tpch_load env sf children step =
        (.err (.preparedStatementArgumentMismatch (toUsize children) (toUsize step)), [])) ∧
    (¬(children < 1 ∨ step < 0 ∨ step ≥ children) →
      ∀ e g : Nat,
        (tpch_load env sf children step).fst ≠ .err (.preparedStatementArgumentMismatch e g)) ∧
    (0 ≤ children → children < 2 ^ 64 → toUsize children = children.toNat) := by
  refine ⟨?_, ?_, ?_⟩
  · intro hinv
    unfold tpch_load
    rw [if_neg hsf, if_pos hinv]
  · intro hval e g hcon
    rcases tpch_load_err_shape env sf children step hsf hval _ hcon with h | ⟨t, _, h⟩ <;>
      cases h
  · intro h0 hlt
    unfold toUsize
    rw [Int.emod_eq_of_lt h0 hlt]

/-- C2 witness: an invalid combination (children = -3) yields the
mismatch error with no effects; a valid one (children = 2, step = 1)
does not fail validation. -/
theorem c2_validation_witness :
    tpch_load allOk 1 (-3) 0 =
      (.err (.preparedStatementArgumentMismatch (toUsize (-3)) (toUsize 0)), []) ∧
    (tpch_load allOk 1 2 1).fst ≠ .err (.preparedStatementArgumentMismatch 2 1) :=
  ⟨(c2_validation allOk 1 (-3) 0 (by norm_num)).1 (by decide),
    (c2_validation allOk 1 2 1 (by norm_num)).2.1 (by decide) 2 1⟩

/-- C3: for nonzero sf and valid partition parameters, a step-0 call
issues the full TRUNCATE first (before any other effect) and never again,
while a step > 0 call never issues a TRUNCATE at all. -/
theorem c3_truncate_iff_step_zero (env : Env) (sf : ℚ) (children step : Int)
    (hsf : sf ≠ 0) (hc : 1 ≤ children) (hs : 0 ≤ step) (hlt : step < children) :
    (step = 0 → env.truncateOk = true →
      ∃ rest, (tpch_load env sf children step).snd =
          Effect.truncateTables tableOrder :: rest ∧
        ∀ ls : List String, Effect.truncateTables ls ∉ rest) ∧
    (0 < step → ∀ ls : List String,
      Effect.truncateTables ls ∉ (tpch_load env sf children step).snd) := by
  have hval : ¬(children < 1 ∨ step < 0 ∨ step ≥ children) := by
    push_neg
    exact ⟨hc, hs, hlt⟩
  constructor
  · intro hstep ht
    subst hstep
    unfold tpch_load
    rw [if_neg hsf, if_neg hval, if_pos rfl]
    have htr : truncate_tables env = (.ok (), [.truncateTables tableOrder]) := by
      simp [truncate_tables, ht]
    rw [htr]
    dsimp only
    rcases hL : loadTables env sf (wrap32 (0 + 1)) (wrap32 children) tableOrder
      with ⟨rl, trl⟩
    have hnot : ∀ ls : List String, Effect.truncateTables ls ∉ trl := by
      intro ls
      have h2 := truncate_notin_loadTables env sf (wrap32 (0 + 1)) (wrap32 children) ls
        tableOrder
      rw [hL] at h2
      exact h2
    cases rl <;> exact ⟨trl, rfl, hnot⟩
  · intro hpos ls
    unfold tpch_load
    rw [if_neg hsf, if_neg hval, if_neg (by omega : ¬step = 0)]
    dsimp only
    rcases hL : loadTables env sf (wrap32 (step + 1)) (wrap32 children) tableOrder
      with ⟨rl, trl⟩
    have hnot := truncate_notin_loadTables env sf (wrap32 (step + 1)) (wrap32 children) ls
      tableOrder
    rw [hL] at hnot
    cases rl <;> simpa using hnot

/-- C3 witness: at sf = 2, children = 2, the step-0 run starts with the
TRUNCATE and the step-1 run contains none. -/
theorem c3_truncate_iff_step_zero_witness :
    (tpch_load allOk 2 2 0).snd.head? = some (Effect.truncateTables tableOrder) ∧
    Effect.truncateTables tableOrder ∉ (tpch_load allOk 2 2 1).snd := by
  constructor
  · obtain ⟨rest, hr, _⟩ :=
      (c3_truncate_iff_step_zero allOk 2 2 0 (by norm_num) (by norm_num) (by norm_num)
        (by norm_num)).1 rfl rfl
    rw [hr]
    rfl
  · exact (c3_truncate_iff_step_zero allOk 2 2 1 (by norm_num) (by norm_num) (by norm_num)
      (by norm_num)).2 (by norm_num) tableOrder

/-- `loaderCalls` distributes over trace concatenation. -/
theorem loaderCalls_append (a b : List Effect) :
    loaderCalls (a ++ b) = loaderCalls a ++ loaderCalls b := by
  simp [loaderCalls, List.filterMap_append]

/-- `as i32` is the identity on values already in i32 range. -/
theorem wrap32_eq_self (x : Int) (h1 : -2 ^ 31 ≤ x) (h2 : x < 2 ^ 31) : wrap32 x = x := by
  unfold wrap32
  rw [Int.emod_eq_of_lt (by omega) (by omega)]
  ring

/-- Dropping the elements different from a member `bad` reaches `bad`. -/
theorem dropWhile_ne_mem (ts : List String) (bad : String) (h : bad ∈ ts) :
    ∃ rest, ts.dropWhile (fun t => t != bad) = bad :: rest := by
  induction ts with
  | nil => cases h
  | cons t ts ih =>
    by_cases hts : t = bad
    · subst hts
      exact ⟨ts, by rw [List.dropWhile_cons_of_neg (by simp)]⟩
    · have hmem : bad ∈ ts := by
        rcases List.mem_cons.mp h with h1 | h1
        · exact absurd h1.symm hts
        · exact h1
      obtain ⟨rest, hr⟩ := ih hmem
      exact ⟨rest, by rw [List.dropWhile_cons_of_pos (by simp [hts]), hr]⟩

/-- C4 counterexample: `children = 2^31` is a valid i64 partition count
(step = 0 passes validation and the load succeeds), yet every table's
generator receives `num_parts = -2^31` — the `as i32` wrap — instead of
the requested totalPartitions. -/
theorem c4_counterexample :
    loaderCalls (tpch_load allOk 1 2147483648 0).snd =
      tableOrder.map (fun t => (t, (1 : ℚ), (1 : Int), (-2147483648 : Int))) ∧
    (-2147483648 : Int) ≠ (2147483648 : Int) := by
  constructor
  · decide
  · decide

/-- C4 (amended): every successful generating invocation loads exactly
the eight tables in the fixed order region, nation, part, supplier,
partsupp, customer, orders, lineitem, passing each generator
`(sf, (step + 1) as i32, children as i32)`; whenever `children ≤ 2^31 - 1`
those casts are exactly the 1-based partition number `step + 1` and
`children`. -/
theorem c4_fixed_order_args (sf : ℚ) (children step : Int) (hsf : sf ≠ 0)
    (hc : 1 ≤ children) (hs : 0 ≤ step) (hlt : step < children) :
    loaderCalls (tpch_load allOk sf children step).snd =
      tableOrder.map (fun t => (t, sf, wrap32 (step + 1), wrap32 children)) ∧
    (children ≤ 2 ^ 31 - 1 →
      wrap32 (step + 1) = step + 1 ∧ wrap32 children = children) := by
  constructor
  · rw [tpch_load_allOk sf children step hsf hc hs hlt]
    dsimp only
    rw [loaderCalls_append, loaderCalls_flatMap_full]
    by_cases hstep : step = 0 <;> simp [hstep, loaderCalls]
  · intro hcb
    exact ⟨wrap32_eq_self (step + 1) (by omega) (by omega),
      wrap32_eq_self children (by omega) (by omega)⟩

/-- C4 witness: sf = 1, children = 2, step = 1 loads the eight tables in
order with part 2 of 2. -/
theorem c4_fixed_order_args_witness :
    loaderCalls (tpch_load allOk 1 2 1).snd =
      tableOrder.map (fun t => (t, (1 : ℚ), (2 : Int), (2 : Int))) := by
  have h := c4_fixed_order_args 1 2 1 (by norm_num) (by norm_num) (by norm_num) (by norm_num)
  have h2 := h.2 (by norm_num)
  rw [h.1]
  norm_num [h2.1, h2.2]

/-- Full evaluation of a valid generating run in which exactly the COPY
into table `bad` fails. -/
theorem tpch_load_failCopy (bad : String) (hbad : bad ∈ tableOrder) (sf : ℚ)
    (children step : Int) (hsf : sf ≠ 0) (hc : 1 ≤ children) (hs : 0 ≤ step)
    (hlt : step < children) :
    tpch_load (envFailCopy bad) sf children step =
      (.err (.copyFailed bad),
        (if step = 0 then [Effect.truncateTables tableOrder] else []) ++
          (((tableOrder.takeWhile fun t => t != bad).flatMap fun t =>
              fullTableTrace t sf (wrap32 (step + 1)) (wrap32 children)) ++
            stagedOnlyTrace bad sf (wrap32 (step + 1)) (wrap32 children))) := by
  have hval : ¬(children < 1 ∨ step < 0 ∨ step ≥ children) := by
    push_neg
    exact ⟨hc, hs, hlt⟩
  obtain ⟨rest, hdrop⟩ := dropWhile_ne_mem tableOrder bad hbad
  have hLT := loadTables_firstCopyFail (envFailCopy bad) (fsOk_envFailCopy bad) sf
    (wrap32 (step + 1)) (wrap32 children) tableOrder rest bad hdrop
  rw [show (envFailCopy bad).copyOk = (fun t => t != bad) from rfl] at hLT
  unfold tpch_load
  rw [if_neg hsf, if_neg hval]
  by_cases hstep : step = 0
  · subst hstep
    rw [if_pos rfl]
    have htr : truncate_tables (envFailCopy bad) =
        (.ok (), [.truncateTables tableOrder]) := rfl
    rw [htr]
    dsimp only
    rw [hLT]
    simp
  · rw [if_neg hstep]
    dsimp only
    rw [hLT]
    simp [hstep]

/-- C5: if the COPY of table `bad` fails, the invocation aborts at `bad`:
the error is propagated, the tables before `bad` in the fixed order were
fully loaded (and are not touched again — no rollback, no further
TRUNCATE), `bad` only got as far as its staged file, and no later table
is loaded. -/
theorem c5_abort_on_table_failure (bad : String) (hbad : bad ∈ tableOrder)
    (sf : ℚ) (children step : Int) (hsf : sf ≠ 0) (hc : 1 ≤ children) (hs : 0 ≤ step)
    (hlt : step < children) :
    (tpch_load (envFailCopy bad) sf children step).fst = .err (.copyFailed bad) ∧
    (tpch_load (envFailCopy bad) sf children step).snd =
      (if step = 0 then [Effect.truncateTables tableOrder] else []) ++
        (((tableOrder.takeWhile fun t => t != bad).flatMap fun t =>
            fullTableTrace t sf (wrap32 (step + 1)) (wrap32 children)) ++
          stagedOnlyTrace bad sf (wrap32 (step + 1)) (wrap32 children)) ∧
    loaderCalls (tpch_load (envFailCopy bad) sf children step).snd =
      ((tableOrder.takeWhile fun t => t != bad) ++ [bad]).map fun t =>
        (t, sf, wrap32 (step + 1), wrap32 children) := by
  have hload := tpch_load_failCopy bad hbad sf children step hsf hc hs hlt
  refine ⟨by rw [hload], by rw [hload], ?_⟩
  rw [hload]
  dsimp only
  rw [loaderCalls_append, loaderCalls_append, loaderCalls_flatMap_full, List.map_append]
  have h1 : loaderCalls (if step = 0 then [Effect.truncateTables tableOrder] else []) = [] := by
    by_cases hstep : step = 0 <;> simp [hstep, loaderCalls]
  rw [h1]
  simp [loaderCalls, stagedOnlyTrace]

/-- C5 witness: with the partsupp COPY failing at sf = 1, the run fails
with that table's error, after loading region..supplier. -/
theorem c5_abort_on_table_failure_witness :
    (tpch_load (envFailCopy "partsupp") 1 1 0).fst = .err (.copyFailed "partsupp") :=
  (c5_abort_on_table_failure "partsupp" (by decide) 1 1 0 (by norm_num) (by norm_num)
    (by norm_num) (by norm_num)).1

/-- C10: any nonzero scale factor — negative ones included — is a
generate request: partition validation applies unchanged, and on a valid,
fully successful run all eight generators receive `sf` itself. -/
theorem c10_nonzero_sf_generates (env : Env) (sf : ℚ) (children step : Int)
    (hsf : sf ≠ 0) :
    ((children < 1 ∨ step < 0 ∨ step ≥ children) →
      tpch_load env sf children step =
        (.err (.preparedStatementArgumentMismatch (toUsize children) (toUsize step)), [])) ∧
    (1 ≤ children → 0 ≤ step → step < children →
      loaderCalls (tpch_load allOk sf children step).snd =
        tableOrder.map fun t => (t, sf, wrap32 (step + 1), wrap32 children)) := by
  constructor
  · intro hinv
    unfold tpch_load
    rw [if_neg hsf, if_pos hinv]
  · intro hc hs hlt
    rw [tpch_load_allOk sf children step hsf hc hs hlt]
    dsimp only
    rw [loaderCalls_append, loaderCalls_flatMap_full]
    by_cases hstep : step = 0 <;> simp [hstep, loaderCalls]

/-- C10 witness: sf = -1 is not treated as a reset; all eight generators
receive -1. -/
theorem c10_nonzero_sf_generates_witness :
    loaderCalls (tpch_load allOk (-1) 1 0).snd =
      tableOrder.map fun t => (t, (-1 : ℚ), (1 : Int), (1 : Int)) := by
  have h := (c10_nonzero_sf_generates allOk (-1) 1 0 (by norm_num)).2 (by norm_num)
    (by norm_num) (by norm_num)
  rw [h]
  norm_num [wrap32]

/-- Distinct table names stage at distinct paths. -/
theorem csvFilePath_inj (t u : String) (h : csvFilePath t = csvFilePath u) : t = u := by
  unfold csvFilePath TPCH_DATA_DIR at h
  have hd : ("/tmp/pg_tpch_data" ++ "/" ++ t ++ ".csv").data =
      ("/tmp/pg_tpch_data" ++ "/" ++ u ++ ".csv").data := by rw [h]
  simp only [String.data_append, List.append_assoc] at hd
  have h2 := List.append_cancel_left hd
  have h3 := List.append_cancel_left h2
  have h4 := List.append_cancel_right h3
  cases t
  cases u
  simp only at h4
  rw [h4]

/-- C6 counterexample: when the COPY of region fails (sf = 1,
children = 1, step = 0), the staged file /tmp/pg_tpch_data/region.csv is
created but never deleted — the artifact outlives the invocation. -/
theorem c6_counterexample :
    Effect.createFile (csvFilePath "region") ∈
      (tpch_load (envFailCopy "region") 1 1 0).snd ∧
    Effect.removeFile (csvFilePath "region") ∉
      (tpch_load (envFailCopy "region") 1 1 0).snd := by
  constructor
  · decide
  · decide

/-- C6 (amended): on the success path every staged per-table CSV is
deleted before the invocation returns, but when a table's COPY (bulk
ingest) fails the invocation returns immediately and that table's staged
file is created yet never deleted. -/
theorem c6_cleanup_success_only (sf : ℚ) (children step : Int) (hsf : sf ≠ 0)
    (hc : 1 ≤ children) (hs : 0 ≤ step) (hlt : step < children) :
    (∀ p, Effect.createFile p ∈ (tpch_load allOk sf children step).snd →
      Effect.removeFile p ∈ (tpch_load allOk sf children step).snd) ∧
    (∀ bad, bad ∈ tableOrder →
      Effect.createFile (csvFilePath bad) ∈
        (tpch_load (envFailCopy bad) sf children step).snd ∧
      Effect.removeFile (csvFilePath bad) ∉
        (tpch_load (envFailCopy bad) sf children step).snd) := by
  constructor
  · intro p hp
    rw [tpch_load_allOk sf children step hsf hc hs hlt] at hp ⊢
    dsimp only at hp ⊢
    rw [List.mem_append] at hp ⊢
    rcases hp with hp | hp
    · exfalso
      by_cases hstep : step = 0 <;> simp [hstep] at hp
    · right
      rw [List.mem_flatMap] at hp ⊢
      obtain ⟨t, ht, hmem⟩ := hp
      have hpe : p = csvFilePath t := by
        simp [fullTableTrace] at hmem
        exact hmem
      subst hpe
      exact ⟨t, ht, by simp [fullTableTrace]⟩
  · intro bad hbad
    rw [tpch_load_failCopy bad hbad sf children step hsf hc hs hlt]
    dsimp only
    constructor
    · simp [stagedOnlyTrace]
    · intro hmem
      rw [List.mem_append] at hmem
      rcases hmem with hmem | hmem
      · by_cases hstep : step = 0 <;> simp [hstep] at hmem
      · rw [List.mem_append] at hmem
        rcases hmem with hmem | hmem
        · rw [List.mem_flatMap] at hmem
          obtain ⟨t, ht, hmem⟩ := hmem
          have hne : t ≠ bad := by
            have hp := List.mem_takeWhile_imp ht
            simpa using hp
          have : csvFilePath t = csvFilePath bad := by
            simp [fullTableTrace] at hmem
            exact hmem.symm
          exact hne (csvFilePath_inj t bad this)
        · simp [stagedOnlyTrace] at hmem

/-- C6 witness: at sf = 1, children = 2, step = 1, the all-success run
removes every file it created, and a lineitem COPY failure leaves
lineitem's staged file behind. -/
theorem c6_cleanup_success_only_witness :
    Effect.removeFile (csvFilePath "nation") ∈ (tpch_load allOk 1 2 1).snd ∧
    Effect.removeFile (csvFilePath "lineitem") ∉
      (tpch_load (envFailCopy "lineitem") 1 2 1).snd := by
  have h := c6_cleanup_success_only 1 2 1 (by norm_num) (by norm_num) (by norm_num)
    (by norm_num)
  exact ⟨h.1 (csvFilePath "nation") (by decide), (h.2 "lineitem" (by decide)).2⟩

/-- With working filesystem operations, `tpch_load` never panics on any
input or SPI outcome. -/
theorem tpch_load_no_panic (env : Env) (h : fsOk env) (sf : ℚ) (children step : Int) :
    ∀ m : String, (tpch_load env sf children step).fst ≠ .panicked m := by
  intro m
  unfold tpch_load
  by_cases hsf : sf = 0
  · rw [if_pos hsf]
    cases ht : env.truncateOk
    · rw [show truncate_tables env = (.err .truncateFailed, []) from by
        simp [truncate_tables, ht]]
      intro hc
      cases hc
    · rw [show truncate_tables env = (.ok (), [.truncateTables tableOrder]) from by
        simp [truncate_tables, ht]]
      intro hc
      cases hc
  · rw [if_neg hsf]
    by_cases hval : children < 1 ∨ step < 0 ∨ step ≥ children
    · rw [if_pos hval]
      intro hc
      cases hc
    · rw [if_neg hval]
      rcases hT : (if step = 0 then truncate_tables env
          else ((.ok (), []) : RustResult Unit × List Effect)) with ⟨rt, trt⟩
      have hrt : (∃ u, rt = .ok u) ∨ ∃ e, rt = .err e := by
        by_cases hstep : step = 0
        · rw [if_pos hstep] at hT
          cases ht : env.truncateOk <;> simp [truncate_tables, ht] at hT
          · exact Or.inr ⟨_, hT.1.symm⟩
          · exact Or.inl ⟨_, hT.1.symm⟩
        · rw [if_neg hstep] at hT
          exact Or.inl ⟨(), (congrArg Prod.fst hT).symm⟩
      rcases hrt with ⟨u, hu⟩ | ⟨e, he⟩
      · subst hu
        dsimp only
        rcases hL : loadTables env sf (wrap32 (step + 1)) (wrap32 children) tableOrder
          with ⟨rl, trl⟩
        have hnp := loadTables_no_panic env h sf (wrap32 (step + 1)) (wrap32 children)
          tableOrder m
        rw [hL] at hnp
        dsimp only at hnp
        cases rl <;> dsimp only <;> intro hc
        · cases hc
        · cases hc
        · injection hc with h2
          exact hnp (by rw [h2])
      · subst he
        dsimp only
        intro hc
        cases hc

/-- C7 counterexample: a staging I/O failure (create_dir_all for region
failing) makes `tpch_load` panic — the failure is not surfaced as a
returned error value, contradicting the claim that it never panics. -/
theorem c7_counterexample :
    (tpch_load (envFailCreateDir "region") 1 1 0).fst =
      .panicked "unwrap: fs create_dir_all" := by
  decide

/-- C7 (amended): staging I/O failures abort via Rust panic (`unwrap`),
not through the `spi::Result` channel; the errors `tpch_load` does return
are exactly SPI statement failures (TRUNCATE or a COPY tagged with its
table) or the partition-validation error, and with working filesystem
operations `tpch_load` never panics. -/
theorem c7_error_channels (env : Env) (sf : ℚ) (children step : Int) (h : fsOk env) :
    (∀ m : String, (tpch_load env sf children step).fst ≠ .panicked m) ∧
    (∀ e : SpiErr, (tpch_load env sf children step).fst = .err e →
      e = .truncateFailed ∨ (∃ t ∈ tableOrder, e = .copyFailed t) ∨
        ∃ eg : Nat × Nat, e = .preparedStatementArgumentMismatch eg.1 eg.2) := by
  refine ⟨tpch_load_no_panic env h sf children step, ?_⟩
  intro e he
  by_cases hsf : sf = 0
  · subst hsf
    unfold tpch_load at he
    rw [if_pos rfl] at he
    cases ht : env.truncateOk
    · rw [show truncate_tables env = (.err .truncateFailed, []) from by
        simp [truncate_tables, ht]] at he
      injection he with h2
      exact Or.inl h2.symm
    · rw [show truncate_tables env = (.ok (), [.truncateTables tableOrder]) from by
        simp [truncate_tables, ht]] at he
      cases he
  · by_cases hval : children < 1 ∨ step < 0 ∨ step ≥ children
    · unfold tpch_load at he
      rw [if_neg hsf, if_pos hval] at he
      injection he with h2
      exact Or.inr (Or.inr ⟨(toUsize children, toUsize step), h2.symm⟩)
    · rcases tpch_load_err_shape env sf children step hsf hval e he with h1 | h1
      · exact Or.inl h1
      · exact Or.inr (Or.inl h1)

/-- C7 witness: the all-success run does not panic, and a region COPY
failure is returned as the tagged COPY error. -/
theorem c7_error_channels_witness :
    (tpch_load allOk 1 1 0).fst ≠ .panicked "unwrap: fs create_dir_all" ∧
    (SpiErr.copyFailed "region" = .truncateFailed ∨
      (∃ t ∈ tableOrder, SpiErr.copyFailed "region" = .copyFailed t) ∨
      ∃ eg : Nat × Nat,
        SpiErr.copyFailed "region" = .preparedStatementArgumentMismatch eg.1 eg.2) :=
  ⟨(c7_error_channels allOk 1 1 0 fsOk_allOk).1 "unwrap: fs create_dir_all",
    (c7_error_channels (envFailCopy "region") 1 1 0 (fsOk_envFailCopy "region")).2
      (.copyFailed "region") (by decide)⟩

/-- Modelled from the spec: `queries::QUERIES` lives in `src/queries.rs`,
which is not under src/; the spec fixes it as a static catalog of the
benchmark's 22 numbered query texts (numbers 1..22, no gaps or
duplicates), with the texts themselves opaque. -/
def QUERIES : List (Int × String) :=
  (List.range 22).map fun i => ((i : Int) + 1, "TPC-H query " ++ toString (i + 1))

/-- `tpch_query` (src/lib.rs:221-228): a linear `find` over the catalog
by query number; a hit returns the text through `Ok`, while a miss hits
`.expect(...)`, i.e. panics with the message below. -/
def tpch_query (query_nr : Int) : RustResult String :=
  match QUERIES.find? (fun query => query.fst == query_nr) with
  | some query => .ok query.snd
  | none => .panicked "Invalid query number must be between 1 and 22 (inclusive)"

/-- C8 counterexample: `tpch_query 0` and `tpch_query 23` panic via
`expect` — neither returns an error value. -/
theorem c8_counterexample :
    tpch_query 0 = .panicked "Invalid query number must be between 1 and 22 (inclusive)" ∧
    tpch_query 23 = .panicked "Invalid query number must be between 1 and 22 (inclusive)" := by
  constructor
  · decide
  · decide

/-- C8 (amended): for every number outside 1..22 the catalog lookup
misses and `tpch_query` fails by panicking with the `expect` message
"Invalid query number must be between 1 and 22 (inclusive)" — a panic
the host runtime converts into a reported database error — rather than
by returning an error value. -/
theorem c8_out_of_range_panics (n : Int) (h : n < 1 ∨ 22 < n) :
    tpch_query n =
      .panicked "Invalid query number must be between 1 and 22 (inclusive)" := by
  have hnone : QUERIES.find? (fun query => query.fst == n) = none := by
    rw [List.find?_eq_none]
    intro q hq
    unfold QUERIES at hq
    simp only [List.mem_map, List.mem_range] at hq
    obtain ⟨i, hi, hqe⟩ := hq
    subst hqe
    simp only [beq_iff_eq]
    simp at hi
    obtain ⟨a, ha, hai⟩ := hi
    omega
  unfold tpch_query
  rw [hnone]

/-- C8 witness: 24 is outside the catalog and panics. -/
theorem c8_out_of_range_panics_witness :
    tpch_query 24 =
      .panicked "Invalid query number must be between 1 and 22 (inclusive)" :=
  c8_out_of_range_panics 24 (Or.inr (by norm_num))

/-- `createdFiles` distributes over trace concatenation. -/
theorem createdFiles_append (a b : List Effect) :
    createdFiles (a ++ b) = createdFiles a ++ createdFiles b := by
  simp [createdFiles, List.filterMap_append]

/-- The files created by a concatenation of full per-table traces are the
per-table staging paths, in table order. -/
theorem createdFiles_flatMap_full (sf : ℚ) (p n : Int) :
    ∀ ts : List String,
      createdFiles (ts.flatMap fun t => fullTableTrace t sf p n) =
        ts.map csvFilePath := by
  intro ts
  induction ts with
  | nil => simp [createdFiles]
  | cons t ts ih =>
    simp only [List.flatMap_cons, List.map_cons, createdFiles, List.filterMap_append]
    rw [createdFiles] at ih
    rw [ih]
    simp [fullTableTrace]

/-- C9 counterexample: two concurrent partition invocations (step 0 and
step 1 of children = 2) stage region at the same fixed path
/tmp/pg_tpch_data/region.csv — indeed they create exactly the same path
list — so staging is not namespaced per invocation. -/
theorem c9_counterexample :
    createdFiles (tpch_load allOk 1 2 0).snd = createdFiles (tpch_load allOk 1 2 1).snd ∧
    Effect.createFile (csvFilePath "region") ∈ (tpch_load allOk 1 2 0).snd ∧
    Effect.createFile (csvFilePath "region") ∈ (tpch_load allOk 1 2 1).snd := by
  refine ⟨?_, ?_, ?_⟩ <;> decide

/-- C9 (amended): the staging area is a single well-known directory with
one fixed file per table, named by the table only: every valid invocation
creates exactly the paths TPCH_DATA_DIR/<table>.csv regardless of its
partition index and count, so distinct tables get distinct paths but
concurrent partitions loading the same table collide on the same staging
file. -/
theorem c9_staging_paths_fixed (sf : ℚ) (children step : Int) (hsf : sf ≠ 0)
    (hc : 1 ≤ children) (hs : 0 ≤ step) (hlt : step < children) :
    createdFiles (tpch_load allOk sf children step).snd = tableOrder.map csvFilePath ∧
    ∀ t u : String, csvFilePath t = csvFilePath u → t = u := by
  constructor
  · rw [tpch_load_allOk sf children step hsf hc hs hlt]
    dsimp only
    rw [createdFiles_append, createdFiles_flatMap_full]
    by_cases hstep : step = 0 <;> simp [hstep, createdFiles]
  · exact csvFilePath_inj

/-- C9 witness: the step-2 partition of a 5-way load at sf = 3 stages
exactly the eight fixed per-table paths. -/
theorem c9_staging_paths_fixed_witness :
    createdFiles (tpch_load allOk 3 5 2).snd = tableOrder.map csvFilePath :=
  (c9_staging_paths_fixed 3 5 2 (by norm_num) (by norm_num) (by norm_num)
    (by norm_num)).1
